import Mathlib

/-!
Verification development for the IPC relay in `src/src-tauri/src/lib.rs`
(goodpuppies/puppyweb).

The relay forwards video-frame payloads (8-byte little-endian width/height
header plus raw pixel bytes) to a native process over a named pipe, and reads
64-byte transform records (16 little-endian 32-bit floats) back, republishing
each as an application event.

Shallow embedding conventions:
* bytes are `Nat` values (claims use values below 256);
* a Rust `f32` produced by `read_f32::<LittleEndian>` is represented by its
  32-bit pattern (`Nat < 2^32`); `float32Val` interprets a finite bit pattern
  as the exact rational value of the IEEE-754 binary32 number;
* the outcome of the OS write in `send_frame_data` is an oracle argument
  (`writeResult`), since the pipe itself is outside the program;
* the inbound pipe is a finite byte stream followed by end-of-stream, and the
  outcome of each `app_handle.emit` call is an oracle (`emitOk`) indexed by
  record number;
* background tasks (`spawn_connection_loop`, `transform_pipe_listener`) are
  modelled as trace functions over a finite script of connect outcomes; an
  exhausted script means the task was still looping at the end of the
  observation window.
-/

deriving instance DecidableEq for Except

namespace PuppyWeb

/-- `const TRANSFORM_DATA_SIZE: usize = 16 * 4;` (lib.rs line 44). -/
def TRANSFORM_DATA_SIZE : Nat := 16 * 4

/-- `byteorder::ReadBytesExt::read_u32::<LittleEndian>` on the remaining bytes
of a cursor: consumes 4 bytes, little-endian; fails (`Err`) when fewer than 4
bytes remain. -/
def readU32LE : List Nat → Option Nat
  | b0 :: b1 :: b2 :: b3 :: _ =>
      some (b0 + b1 * 2 ^ 8 + b2 * 2 ^ 16 + b3 * 2 ^ 24)
  | _ => none

/-- `read_f32::<LittleEndian>` reads 4 bytes little-endian and transmutes the
resulting `u32` to `f32`; we keep the bit pattern. -/
def readF32LE (bytes : List Nat) : Option Nat := readU32LE bytes

/-- Exact value of a finite IEEE-754 binary32 bit pattern, scaled by `2 ^ 149`
so that it is an integer (subnormals have value `fraction * 2 ^ (-149)`;
normals `(2^23 + fraction) * 2 ^ (exponent - 150)`).  Exponent 255 (infinity
and NaN) has no finite value; no input of the claims produces it. -/
def float32ValScaled (bits : Nat) : Int :=
  let sgn : Int := if bits / 2 ^ 31 % 2 = 1 then -1 else 1
  let e : Nat := bits / 2 ^ 23 % 2 ^ 8
  let f : Int := (bits % 2 ^ 23 : Nat)
  if e = 0 then sgn * f else sgn * (2 ^ 23 + f) * 2 ^ (e - 1)

/-- Exact rational value of a finite binary32 bit pattern. -/
def float32Val (bits : Nat) : ℚ := (float32ValScaled bits : ℚ) / 2 ^ 149

/-- The loop body of `deserialize_matrix` (lib.rs lines 203-213): read 16
successive `f32` values from the cursor; `none` means some read returned
`Err`, in which case the caller substitutes the default matrix. -/
def deserializeLoop : Nat → List Nat → Option (List Nat)
  | 0, _ => some []
  | n + 1, bytes =>
    match readF32LE bytes with
    | none => none
    | some v =>
      match deserializeLoop n (bytes.drop 4) with
      | none => none
      | some rest => some (v :: rest)

/-- `fn deserialize_matrix(buffer: &[u8]) -> Vec<f32>` (lib.rs lines 200-215):
reads 16 little-endian floats from the buffer; on any read error returns
`vec![0.0; 16]` (bit pattern 0 is 0.0f32). -/
def deserialize_matrix (buffer : List Nat) : List Nat :=
  match deserializeLoop 16 buffer with
  | some matrix => matrix
  | none => List.replicate 16 0

/-- The body of a `tauri::ipc::Request`: `send_frame_data` requires the
`InvokeBody::Raw` variant. -/
inductive InvokeBody
  | Raw (payload : List Nat)
  | Json
deriving DecidableEq

/-- Observable outcome of one `send_frame_data` call: the returned
`Result<(), String>`, the state of the shared `pipe_writer` slot after the
call, the payloads passed to `write_all` during the call, the number of pipe
connects attempted by the call itself, and whether the call spawned a new
background connection task. -/
structure SendOutcome where
  result : Except String Unit
  slotAfter : Option Unit
  writeAttempts : List (List Nat)
  connectAttempts : Nat
  spawnedReconnect : Bool
deriving DecidableEq

/-- `async fn send_frame_data(request, state) -> Result<(), String>`
(lib.rs lines 89-137).  `slot` is the contents of the locked
`state.pipe_writer`; `writeResult` is the outcome of the (single, full-payload)
`writer.write_all(&payload)` call, consulted only when a writer is present. -/
def send_frame_data (body : InvokeBody) (slot : Option Unit)
    (writeResult : Except String Unit) : SendOutcome :=
  match body with
  | InvokeBody.Json =>
      { result := Except.error "RequestBodyMustBeRaw", slotAfter := slot,
        writeAttempts := [], connectAttempts := 0, spawnedReconnect := false }
  | InvokeBody.Raw payload =>
    if payload.length < 8 then
      { result := Except.error "Payload too small for header", slotAfter := slot,
        writeAttempts := [], connectAttempts := 0, spawnedReconnect := false }
    else
      -- `let mut cursor = Cursor::new(&payload[..8]);` then two u32 reads
      match readU32LE (payload.take 8) with
      | none =>
          { result := Except.error "Failed to read width from payload",
            slotAfter := slot, writeAttempts := [], connectAttempts := 0,
            spawnedReconnect := false }
      | some _width =>
        match readU32LE ((payload.take 8).drop 4) with
        | none =>
            { result := Except.error "Failed to read height from payload",
              slotAfter := slot, writeAttempts := [], connectAttempts := 0,
              spawnedReconnect := false }
        | some _height =>
          match slot with
          | some _writer =>
            match writeResult with
            | Except.error e =>
                -- `*pipe_guard = None; state.spawn_connection_loop();`
                { result := Except.error ("Error writing frame payload: " ++ e),
                  slotAfter := none, writeAttempts := [payload],
                  connectAttempts := 0, spawnedReconnect := true }
            | Except.ok _ =>
                { result := Except.ok (), slotAfter := slot,
                  writeAttempts := [payload], connectAttempts := 0,
                  spawnedReconnect := false }
          | none =>
              { result := Except.error "Frame pipe not connected",
                slotAfter := slot, writeAttempts := [], connectAttempts := 0,
                spawnedReconnect := false }

/-- Observable outcome of the background task spawned by
`spawn_connection_loop` over a finite script of connect outcomes
(`true` = `ClientOptions::new().open(FRAME_PIPE_PATH)` returned `Ok`). -/
structure ConnLoopOutcome where
  attempts : Nat
  stored : Bool
  sleeps : Nat
deriving DecidableEq

/-- The `loop` inside `spawn_connection_loop` (lib.rs lines 60-80): each
iteration attempts one connect; on `Ok` it stores the write half in the shared
slot and `break`s (ignoring the rest of the script — the task terminates and
does not monitor the connection); on `Err` it sleeps 1 second and retries.
An exhausted script means the task was still retrying. -/
def connection_loop : List Bool → ConnLoopOutcome
  | [] => { attempts := 0, stored := false, sleeps := 0 }
  | true :: _ => { attempts := 1, stored := true, sleeps := 0 }
  | false :: rest =>
      { attempts := (connection_loop rest).attempts + 1,
        stored := (connection_loop rest).stored,
        sleeps := (connection_loop rest).sleeps + 1 }

/-- Observable actions of the transform side: pipe connect attempts, the
1-second retry sleep, invocations of `app_handle.emit("transform-update", ..)`
with the decoded matrix, and the log lines of the error branches. -/
inductive Action
  | connectAttempt
  | sleepSec (n : Nat)
  | emitted (matrix : List Nat)
  | logEmitErr
  | logShortRead
  | logEof
  | logReadErr (msg : String)
deriving DecidableEq

/-- Result of `reader.read_exact(&mut buffer).await` as matched in
`handle_transform_connection` (lib.rs lines 165-194). -/
inductive ReadOutcome
  | ok (n : Nat)
  | eofErr
  | otherErr (msg : String)
deriving DecidableEq

/-- Semantics of `read_exact` over the remaining inbound stream: the 64-byte
buffer is filled (`Ok(64)`) when at least 64 bytes remain, otherwise the
stream ends first and `read_exact` returns `Err(UnexpectedEof)`. -/
def readExact (stream : List Nat) : ReadOutcome :=
  if TRANSFORM_DATA_SIZE ≤ stream.length then ReadOutcome.ok TRANSFORM_DATA_SIZE
  else ReadOutcome.eofErr

lemma readExact_ok_length {stream : List Nat} {n : Nat}
    (h : readExact stream = ReadOutcome.ok n) :
    TRANSFORM_DATA_SIZE ≤ stream.length := by
  by_contra hc
  simp [readExact, hc] at h

/-- `async fn handle_transform_connection(reader, app_handle)` (lib.rs lines
162-197): the read loop over one live connection.  `emitOk k` is the outcome
of the `app_handle.emit` call for the `k`-th record of this connection; a
failed emit is logged and the loop continues.  The function returns the trace
of observable actions until the loop `break`s. -/
def handle_transform_connection (emitOk : Nat → Bool) (k : Nat)
    (stream : List Nat) : List Action :=
  match h : readExact stream with
  | ReadOutcome.ok n =>
    if n = TRANSFORM_DATA_SIZE then
      Action.emitted (deserialize_matrix (stream.take TRANSFORM_DATA_SIZE)) ::
        ((if emitOk k then [] else [Action.logEmitErr]) ++
          handle_transform_connection emitOk (k + 1)
            (stream.drop TRANSFORM_DATA_SIZE))
    else [Action.logShortRead]
  | ReadOutcome.eofErr => [Action.logEof]
  | ReadOutcome.otherErr msg => [Action.logReadErr msg]
termination_by stream.length
decreasing_by
  have hlen : TRANSFORM_DATA_SIZE ≤ stream.length := readExact_ok_length h
  simp only [List.length_drop, TRANSFORM_DATA_SIZE] at *
  omega

/-- One scripted event for the outer loop of `transform_pipe_listener`:
either `ClientOptions::new().open(TRANSFORM_PIPE_PATH)` fails, or it succeeds
and yields a connection carrying `stream` bytes (then end-of-stream) whose
emit outcomes are `emitOk`. -/
inductive ConnEvent
  | connectFail
  | connectOk (stream : List Nat) (emitOk : Nat → Bool)

/-- `async fn transform_pipe_listener(app_handle)` (lib.rs lines 140-159):
the unbounded outer loop, as a trace function over a finite script of connect
outcomes.  Each event consumes one connect attempt; a failure is followed by a
1-second sleep and the loop continues; a success runs the read handler and,
when it returns (disconnection), the loop continues with the next attempt.
An exhausted script means the task was still looping. -/
def transform_pipe_listener : List ConnEvent → List Action
  | [] => []
  | ConnEvent.connectFail :: rest =>
      Action.connectAttempt :: Action.sleepSec 1 ::
        transform_pipe_listener rest
  | ConnEvent.connectOk stream emitOk :: rest =>
      Action.connectAttempt ::
        (handle_transform_connection emitOk 0 stream ++
          transform_pipe_listener rest)

/-- The matrices passed to `app_handle.emit`, in order, within a trace. -/
def emittedMatrices : List Action → List (List Nat)
  | [] => []
  | Action.emitted m :: rest => m :: emittedMatrices rest
  | _ :: rest => emittedMatrices rest

/-- The complete 64-byte records of an inbound stream, in order (a trailing
fragment shorter than 64 bytes yields no record). -/
def chunks64 (stream : List Nat) : List (List Nat) :=
  if TRANSFORM_DATA_SIZE ≤ stream.length then
    stream.take TRANSFORM_DATA_SIZE :: chunks64 (stream.drop TRANSFORM_DATA_SIZE)
  else []
termination_by stream.length
decreasing_by
  simp only [List.length_drop, TRANSFORM_DATA_SIZE] at *
  omega

/-! ### Helper lemmas -/

lemma transform_data_size_eq : TRANSFORM_DATA_SIZE = 64 := rfl

lemma exists_four_cons (l : List Nat) (h : 4 ≤ l.length) :
    ∃ b0 b1 b2 b3 rest, l = b0 :: b1 :: b2 :: b3 :: rest := by
  rcases l with _ | ⟨b0, _ | ⟨b1, _ | ⟨b2, _ | ⟨b3, rest⟩⟩⟩⟩ <;>
    simp at h ⊢

lemma exists_eight_cons (l : List Nat) (h : 8 ≤ l.length) :
    ∃ a0 a1 a2 a3 a4 a5 a6 a7 rest,
      l = a0 :: a1 :: a2 :: a3 :: a4 :: a5 :: a6 :: a7 :: rest := by
  rcases l with _ | ⟨a0, _ | ⟨a1, _ | ⟨a2, _ | ⟨a3, _ | ⟨a4, _ | ⟨a5, _ |
    ⟨a6, _ | ⟨a7, rest⟩⟩⟩⟩⟩⟩⟩⟩ <;> simp at h ⊢

lemma readU32LE_isSome (l : List Nat) (h : 4 ≤ l.length) :
    ∃ v, readU32LE l = some v := by
  obtain ⟨b0, b1, b2, b3, rest, rfl⟩ := exists_four_cons l h
  exact ⟨_, rfl⟩

lemma readU32LE_eq_none (l : List Nat) (h : l.length < 4) :
    readU32LE l = none := by
  rcases l with _ | ⟨b0, _ | ⟨b1, _ | ⟨b2, _ | ⟨b3, rest⟩⟩⟩⟩
  · rfl
  · rfl
  · rfl
  · rfl
  · exfalso
    simp only [List.length] at h
    omega

/-- Unfolding `handle_transform_connection` when a full record is available. -/
lemma handle_step_ge (emitOk : Nat → Bool) (k : Nat) (stream : List Nat)
    (h : TRANSFORM_DATA_SIZE ≤ stream.length) :
    handle_transform_connection emitOk k stream =
      Action.emitted (deserialize_matrix (stream.take TRANSFORM_DATA_SIZE)) ::
        ((if emitOk k then [] else [Action.logEmitErr]) ++
          handle_transform_connection emitOk (k + 1)
            (stream.drop TRANSFORM_DATA_SIZE)) := by
  rw [handle_transform_connection]
  split
  · rename_i n heq
    unfold readExact at heq
    rw [if_pos h] at heq
    cases heq
    simp
  · rename_i heq
    unfold readExact at heq
    rw [if_pos h] at heq
    cases heq
  · rename_i msg heq
    unfold readExact at heq
    rw [if_pos h] at heq
    cases heq

/-- Unfolding `handle_transform_connection` when the stream ends before a full
record: `read_exact` returns `Err(UnexpectedEof)` and the loop breaks. -/
lemma handle_step_lt (emitOk : Nat → Bool) (k : Nat) (stream : List Nat)
    (h : stream.length < TRANSFORM_DATA_SIZE) :
    handle_transform_connection emitOk k stream = [Action.logEof] := by
  rw [handle_transform_connection]
  split
  · rename_i n heq
    unfold readExact at heq
    rw [if_neg (Nat.not_le.mpr h)] at heq
    cases heq
  · rfl
  · rename_i msg heq
    unfold readExact at heq
    rw [if_neg (Nat.not_le.mpr h)] at heq
    cases heq

lemma chunks64_ge (stream : List Nat) (h : TRANSFORM_DATA_SIZE ≤ stream.length) :
    chunks64 stream =
      stream.take TRANSFORM_DATA_SIZE ::
        chunks64 (stream.drop TRANSFORM_DATA_SIZE) := by
  rw [chunks64]
  simp [h]

lemma chunks64_lt (stream : List Nat) (h : stream.length < TRANSFORM_DATA_SIZE) :
    chunks64 stream = [] := by
  rw [chunks64]
  simp [Nat.not_le.mpr h]

lemma emittedMatrices_append (t1 t2 : List Action) :
    emittedMatrices (t1 ++ t2) = emittedMatrices t1 ++ emittedMatrices t2 := by
  induction t1 with
  | nil => rfl
  | cons a rest ih => cases a <;> simp [emittedMatrices, ih]

/-- When at least `4 * n` bytes remain, the deserialize loop succeeds and
yields the `n` little-endian words at offsets `0, 4, ..., 4 * (n - 1)`. -/
lemma deserializeLoop_eq (n : Nat) (bytes : List Nat) (h : 4 * n ≤ bytes.length) :
    deserializeLoop n bytes =
      some ((List.range n).map fun i => (readU32LE (bytes.drop (4 * i))).getD 0) := by
  induction n generalizing bytes with
  | zero => simp [deserializeLoop]
  | succ m ih =>
    obtain ⟨b0, b1, b2, b3, rest, rfl⟩ :=
      exists_four_cons bytes (by omega)
    have hrest : 4 * m ≤ rest.length := by
      simp only [List.length_cons] at h
      omega
    have hdrop : ∀ i : Nat,
        (b0 :: b1 :: b2 :: b3 :: rest).drop (4 * (i + 1)) = rest.drop (4 * i) := by
      intro i
      have h4 : 4 * (i + 1) = 4 + 4 * i := by ring
      rw [h4, ← List.drop_drop]
      rfl
    have hread : readF32LE (b0 :: b1 :: b2 :: b3 :: rest) =
        some (b0 + b1 * 2 ^ 8 + b2 * 2 ^ 16 + b3 * 2 ^ 24) := rfl
    rw [deserializeLoop, hread]
    have hdrop4 : (b0 :: b1 :: b2 :: b3 :: rest).drop 4 = rest := rfl
    rw [hdrop4, ih rest hrest]
    rw [List.range_succ_eq_map, List.map_cons, List.map_map]
    refine congrArg some (congrArg₂ List.cons rfl ?_)
    refine List.map_congr_left ?_
    intro i _
    simp only [Function.comp_apply, Nat.succ_eq_add_one, hdrop]

/-- When fewer than `4 * n` bytes remain, some float read fails. -/
lemma deserializeLoop_none (n : Nat) (bytes : List Nat)
    (h : bytes.length < 4 * n) :
    deserializeLoop n bytes = none := by
  induction n generalizing bytes with
  | zero => omega
  | succ m ih =>
    by_cases h4 : 4 ≤ bytes.length
    · obtain ⟨b0, b1, b2, b3, rest, rfl⟩ := exists_four_cons bytes h4
      have hrest : rest.length < 4 * m := by
        simp only [List.length_cons] at h
        omega
      have hread : readF32LE (b0 :: b1 :: b2 :: b3 :: rest) =
          some (b0 + b1 * 2 ^ 8 + b2 * 2 ^ 16 + b3 * 2 ^ 24) := rfl
      have hdrop4 : (b0 :: b1 :: b2 :: b3 :: rest).drop 4 = rest := rfl
      rw [deserializeLoop, hread, hdrop4, ih rest hrest]
    · have hread : readF32LE bytes = none :=
        readU32LE_eq_none bytes (by omega)
      rw [deserializeLoop, hread]

/-- A buffer of at least 64 bytes decodes to the 16 words at offsets
`0, 4, ..., 60`. -/
lemma deserialize_matrix_of_ge (buffer : List Nat)
    (h : TRANSFORM_DATA_SIZE ≤ buffer.length) :
    deserialize_matrix buffer =
      (List.range 16).map fun i => (readU32LE (buffer.drop (4 * i))).getD 0 := by
  rw [deserialize_matrix, deserializeLoop_eq 16 buffer (by
    rw [transform_data_size_eq] at h
    omega)]

/-- A buffer shorter than 64 bytes decodes to the default all-zero matrix. -/
lemma deserialize_matrix_of_lt (buffer : List Nat)
    (h : buffer.length < TRANSFORM_DATA_SIZE) :
    deserialize_matrix buffer = List.replicate 16 0 := by
  rw [deserialize_matrix, deserializeLoop_none 16 buffer (by
    rw [transform_data_size_eq] at h
    omega)]

lemma deserialize_matrix_length (buffer : List Nat) :
    (deserialize_matrix buffer).length = 16 := by
  by_cases h : TRANSFORM_DATA_SIZE ≤ buffer.length
  · rw [deserialize_matrix_of_ge buffer h]
    simp
  · rw [deserialize_matrix_of_lt buffer (by omega)]
    simp

/-- Bit pattern `0x00000000` is `0.0f32`. -/
lemma float32Val_zero : float32Val 0 = 0 := by
  have h : float32ValScaled 0 = 0 := by decide
  rw [float32Val, h]
  norm_num

set_option maxRecDepth 2048 in
/-- Bit pattern `0x3F800000` is `1.0f32`. -/
lemma float32Val_one : float32Val 0x3F800000 = 1 := by
  have h : float32ValScaled 0x3F800000 = 2 ^ 149 := by decide
  rw [float32Val, h]
  norm_num

/-- The matrices emitted over one connection are exactly the decodes of the
complete 64-byte records of its stream, in order, independently of the emit
outcomes. -/
lemma emittedMatrices_handle (emitOk : Nat → Bool) :
    ∀ L (stream : List Nat), stream.length = L → ∀ k,
      emittedMatrices (handle_transform_connection emitOk k stream) =
        (chunks64 stream).map deserialize_matrix := by
  intro L
  induction L using Nat.strong_induction_on with
  | _ L ih =>
    intro stream hL k
    by_cases h : TRANSFORM_DATA_SIZE ≤ stream.length
    · have hlt : (stream.drop TRANSFORM_DATA_SIZE).length < L := by
        subst hL
        rw [List.length_drop]
        rw [transform_data_size_eq] at h ⊢
        omega
      have hrec := ih (stream.drop TRANSFORM_DATA_SIZE).length hlt
        (stream.drop TRANSFORM_DATA_SIZE) rfl (k + 1)
      rw [handle_step_ge emitOk k stream h, chunks64_ge stream h]
      by_cases he : emitOk k
      · simp [he, emittedMatrices, emittedMatrices_append, hrec]
      · simp [he, emittedMatrices, emittedMatrices_append, hrec]
    · rw [handle_step_lt emitOk k stream (by omega),
        chunks64_lt stream (by omega)]
      simp [emittedMatrices]

/-- The read loop never attempts a pipe connect itself. -/
lemma handle_no_connectAttempt (emitOk : Nat → Bool) :
    ∀ L (stream : List Nat), stream.length = L → ∀ k,
      Action.connectAttempt ∉ handle_transform_connection emitOk k stream := by
  intro L
  induction L using Nat.strong_induction_on with
  | _ L ih =>
    intro stream hL k
    by_cases h : TRANSFORM_DATA_SIZE ≤ stream.length
    · have hlt : (stream.drop TRANSFORM_DATA_SIZE).length < L := by
        subst hL
        rw [List.length_drop]
        rw [transform_data_size_eq] at h ⊢
        omega
      have hrec := ih (stream.drop TRANSFORM_DATA_SIZE).length hlt
        (stream.drop TRANSFORM_DATA_SIZE) rfl (k + 1)
      rw [handle_step_ge emitOk k stream h]
      by_cases he : emitOk k
      · simp [he, List.mem_cons, List.mem_append, hrec]
      · simp [he, List.mem_cons, List.mem_append, hrec]
    · rw [handle_step_lt emitOk k stream (by omega)]
      simp

/-- Every scripted event of the outer loop consumes exactly one connect
attempt: the listener never stops attempting. -/
lemma listener_count_connect (evs : List ConnEvent) :
    (transform_pipe_listener evs).count Action.connectAttempt = evs.length := by
  induction evs with
  | nil => rfl
  | cons e rest ih =>
    cases e with
    | connectFail => simp [transform_pipe_listener, List.count_cons, ih]
    | connectOk stream emitOk =>
      have hno : (handle_transform_connection emitOk 0 stream).count
          Action.connectAttempt = 0 :=
        List.count_eq_zero.mpr
          (handle_no_connectAttempt emitOk stream.length stream rfl 0)
      simp [transform_pipe_listener, List.count_cons, List.count_append, ih, hno]

/-- `send_frame_data` on a well-formed payload with a connected writer whose
write fails. -/
lemma send_raw_write_error (payload : List Nat) (h : 8 ≤ payload.length)
    (e : String) :
    send_frame_data (InvokeBody.Raw payload) (some ()) (Except.error e) =
      { result := Except.error ("Error writing frame payload: " ++ e),
        slotAfter := none, writeAttempts := [payload],
        connectAttempts := 0, spawnedReconnect := true } := by
  obtain ⟨a0, a1, a2, a3, a4, a5, a6, a7, rest, rfl⟩ := exists_eight_cons payload h
  have hcond :
      ¬ ((a0 :: a1 :: a2 :: a3 :: a4 :: a5 :: a6 :: a7 :: rest).length < 8) := by
    simp
  simp only [send_frame_data, if_neg hcond]
  rfl

/-- `send_frame_data` on a well-formed payload with a connected writer whose
write succeeds. -/
lemma send_raw_write_ok (payload : List Nat) (h : 8 ≤ payload.length) :
    send_frame_data (InvokeBody.Raw payload) (some ()) (Except.ok ()) =
      { result := Except.ok (), slotAfter := some (),
        writeAttempts := [payload], connectAttempts := 0,
        spawnedReconnect := false } := by
  obtain ⟨a0, a1, a2, a3, a4, a5, a6, a7, rest, rfl⟩ := exists_eight_cons payload h
  have hcond :
      ¬ ((a0 :: a1 :: a2 :: a3 :: a4 :: a5 :: a6 :: a7 :: rest).length < 8) := by
    simp
  simp only [send_frame_data, if_neg hcond]
  rfl

/-- `send_frame_data` on a well-formed payload while the slot is empty. -/
lemma send_raw_not_connected (payload : List Nat) (h : 8 ≤ payload.length)
    (writeResult : Except String Unit) :
    send_frame_data (InvokeBody.Raw payload) none writeResult =
      { result := Except.error "Frame pipe not connected", slotAfter := none,
        writeAttempts := [], connectAttempts := 0,
        spawnedReconnect := false } := by
  obtain ⟨a0, a1, a2, a3, a4, a5, a6, a7, rest, rfl⟩ := exists_eight_cons payload h
  have hcond :
      ¬ ((a0 :: a1 :: a2 :: a3 :: a4 :: a5 :: a6 :: a7 :: rest).length < 8) := by
    simp
  simp only [send_frame_data, if_neg hcond]
  rfl

/-- The 64-byte inbound record of claim C5: zero bytes except a little-endian
`1.0f32` in the second 4-byte slot. -/
def c5record : List Nat :=
  List.replicate 4 0 ++ [0x00, 0x00, 0x80, 0x3F] ++ List.replicate 56 0

/-! ### Claims -/

/-- Claim C1: for every invocation of `send_frame_data` in which the write to
the pipe fails, before the call returns its error the shared outbound slot is
set to `None`, a reconnection attempt is triggered (a new connection task is
spawned), and the call returns an error describing the write failure. -/
theorem send_write_failure_invalidates_slot (payload : List Nat) (e : String)
    (h : 8 ≤ payload.length) :
    (send_frame_data (InvokeBody.Raw payload) (some ())
        (Except.error e)).slotAfter = none ∧
    (send_frame_data (InvokeBody.Raw payload) (some ())
        (Except.error e)).spawnedReconnect = true ∧
    (send_frame_data (InvokeBody.Raw payload) (some ())
        (Except.error e)).result =
      Except.error ("Error writing frame payload: " ++ e) := by
  rw [send_raw_write_error payload h e]
  exact ⟨rfl, rfl, rfl⟩

theorem send_write_failure_invalidates_slot_witness :
    8 ≤ (List.replicate 8 0).length ∧
    ((send_frame_data (InvokeBody.Raw (List.replicate 8 0)) (some ())
        (Except.error "os error 232")).slotAfter = none ∧
     (send_frame_data (InvokeBody.Raw (List.replicate 8 0)) (some ())
        (Except.error "os error 232")).spawnedReconnect = true ∧
     (send_frame_data (InvokeBody.Raw (List.replicate 8 0)) (some ())
        (Except.error "os error 232")).result =
       Except.error ("Error writing frame payload: " ++ "os error 232")) :=
  ⟨by decide,
   send_write_failure_invalidates_slot (List.replicate 8 0) "os error 232"
     (by decide)⟩

/-- Claim C2 as stated is false: with the outbound slot empty, a
`send_frame_data` call makes 0 write/connect attempts (not 2) and returns the
fixed not-connected error rather than an OS error. -/
theorem send_two_attempts_counterexample :
    ¬ ((send_frame_data (InvokeBody.Raw (List.replicate 8 0)) none
          (Except.ok ())).writeAttempts.length +
       (send_frame_data (InvokeBody.Raw (List.replicate 8 0)) none
          (Except.ok ())).connectAttempts = 2) := by
  decide

/-- Claim C2, amended: when the outbound handle is absent, a single
`send_frame_data` call makes exactly 0 write/connect attempts (the code
implements the fail-fast variant of the send path) and fails immediately with
the not-connected error; no OS error is surfaced. -/
theorem send_absent_handle_zero_attempts (payload : List Nat)
    (writeResult : Except String Unit) (h : 8 ≤ payload.length) :
    (send_frame_data (InvokeBody.Raw payload) none
        writeResult).writeAttempts.length +
      (send_frame_data (InvokeBody.Raw payload) none
        writeResult).connectAttempts = 0 ∧
    (send_frame_data (InvokeBody.Raw payload) none writeResult).result =
      Except.error "Frame pipe not connected" := by
  rw [send_raw_not_connected payload h writeResult]
  exact ⟨rfl, rfl⟩

theorem send_absent_handle_zero_attempts_witness :
    8 ≤ (List.replicate 8 0).length ∧
    ((send_frame_data (InvokeBody.Raw (List.replicate 8 0)) none
        (Except.ok ())).writeAttempts.length +
      (send_frame_data (InvokeBody.Raw (List.replicate 8 0)) none
        (Except.ok ())).connectAttempts = 0 ∧
     (send_frame_data (InvokeBody.Raw (List.replicate 8 0)) none
        (Except.ok ())).result = Except.error "Frame pipe not connected") :=
  ⟨by decide,
   send_absent_handle_zero_attempts (List.replicate 8 0) (Except.ok ())
     (by decide)⟩

/-- Claim C3: for every `send_frame_data` call with a well-formed payload
(length at least 8) while the shared outbound slot holds no handle, the call
returns the not-connected error immediately, attempting no pipe connect and no
write, and spawning no reconnection. -/
theorem send_not_connected_fail_fast (payload : List Nat)
    (writeResult : Except String Unit) (h : 8 ≤ payload.length) :
    (send_frame_data (InvokeBody.Raw payload) none writeResult).result =
      Except.error "Frame pipe not connected" ∧
    (send_frame_data (InvokeBody.Raw payload) none writeResult).writeAttempts
      = [] ∧
    (send_frame_data (InvokeBody.Raw payload) none
        writeResult).connectAttempts = 0 ∧
    (send_frame_data (InvokeBody.Raw payload) none
        writeResult).spawnedReconnect = false := by
  rw [send_raw_not_connected payload h writeResult]
  exact ⟨rfl, rfl, rfl, rfl⟩

theorem send_not_connected_fail_fast_witness :
    8 ≤ (List.replicate 10 7).length ∧
    ((send_frame_data (InvokeBody.Raw (List.replicate 10 7)) none
        (Except.ok ())).result = Except.error "Frame pipe not connected" ∧
     (send_frame_data (InvokeBody.Raw (List.replicate 10 7)) none
        (Except.ok ())).writeAttempts = [] ∧
     (send_frame_data (InvokeBody.Raw (List.replicate 10 7)) none
        (Except.ok ())).connectAttempts = 0 ∧
     (send_frame_data (InvokeBody.Raw (List.replicate 10 7)) none
        (Except.ok ())).spawnedReconnect = false) :=
  ⟨by decide,
   send_not_connected_fail_fast (List.replicate 10 7) (Except.ok ())
     (by decide)⟩

/-- Claim C4: for every payload of length at least 8 sent through a connected
writer, `send_frame_data` performs exactly one write, and that write carries
the entire received byte buffer verbatim (header plus pixel bytes), whatever
the relation of the pixel-byte count to the width and height in the header;
on write success the call returns `Ok`. -/
theorem send_writes_payload_verbatim (payload : List Nat)
    (writeResult : Except String Unit) (h : 8 ≤ payload.length) :
    (send_frame_data (InvokeBody.Raw payload) (some ())
        writeResult).writeAttempts = [payload] ∧
    (send_frame_data (InvokeBody.Raw payload) (some ())
        (Except.ok ())).result = Except.ok () := by
  constructor
  · cases writeResult with
    | ok u =>
        cases u
        rw [send_raw_write_ok payload h]
    | error e => rw [send_raw_write_error payload h e]
  · rw [send_raw_write_ok payload h]

theorem send_writes_payload_verbatim_witness :
    8 ≤ (List.replicate 4 0 ++ [2, 0, 0, 0] ++ [9, 9, 9]).length ∧
    ((send_frame_data
        (InvokeBody.Raw (List.replicate 4 0 ++ [2, 0, 0, 0] ++ [9, 9, 9]))
        (some ()) (Except.ok ())).writeAttempts =
      [List.replicate 4 0 ++ [2, 0, 0, 0] ++ [9, 9, 9]] ∧
     (send_frame_data
        (InvokeBody.Raw (List.replicate 4 0 ++ [2, 0, 0, 0] ++ [9, 9, 9]))
        (some ()) (Except.ok ())).result = Except.ok ()) :=
  ⟨by decide,
   send_writes_payload_verbatim (List.replicate 4 0 ++ [2, 0, 0, 0] ++ [9, 9, 9])
     (Except.ok ()) (by decide)⟩

/-- Claim C5: for every 64-byte buffer, `deserialize_matrix` returns exactly
the 16 words obtained by reading consecutive little-endian 32-bit values at
offsets 0, 4, ..., 60; and the concrete record with little-endian `1.0f32` in
the second slot decodes to the float values `0, 1, 0, ..., 0` (14 trailing
zeros). -/
theorem deserialize_matrix_le_float_reads :
    (∀ buffer : List Nat, buffer.length = 64 →
      deserialize_matrix buffer =
        (List.range 16).map fun i => (readU32LE (buffer.drop (4 * i))).getD 0) ∧
    (deserialize_matrix c5record).map float32Val =
      0 :: 1 :: List.replicate 14 (0 : ℚ) := by
  constructor
  · intro buffer hb
    refine deserialize_matrix_of_ge buffer ?_
    rw [transform_data_size_eq, hb]
  · have hrec : deserialize_matrix c5record =
        0 :: 0x3F800000 :: List.replicate 14 0 := by decide
    rw [hrec]
    simp [float32Val_zero, float32Val_one, List.map_replicate]

theorem deserialize_matrix_le_float_reads_witness :
    c5record.length = 64 ∧
    deserialize_matrix c5record =
      (List.range 16).map fun i => (readU32LE (c5record.drop (4 * i))).getD 0 :=
  ⟨by decide, deserialize_matrix_le_float_reads.1 c5record (by decide)⟩

/-- Claim C6: a record that arrives short (fewer than 64 bytes, then stream
end) does not crash the read loop, triggers no publish callback for that
truncated record, and makes the loop exit back to the connect loop, which
initiates exactly one reconnect attempt per subsequent scripted connect
event. -/
theorem short_record_no_emit_reconnect (stream : List Nat)
    (emitOk : Nat → Bool) (rest : List ConnEvent)
    (h : stream.length < TRANSFORM_DATA_SIZE) :
    handle_transform_connection emitOk 0 stream = [Action.logEof] ∧
    emittedMatrices (handle_transform_connection emitOk 0 stream) = [] ∧
    transform_pipe_listener (ConnEvent.connectOk stream emitOk :: rest) =
      Action.connectAttempt :: Action.logEof ::
        transform_pipe_listener rest ∧
    (transform_pipe_listener
        (ConnEvent.connectOk stream emitOk :: rest)).count
      Action.connectAttempt = 1 + rest.length := by
  have h1 := handle_step_lt emitOk 0 stream h
  refine ⟨h1, by rw [h1]; rfl, ?_, ?_⟩
  · show Action.connectAttempt ::
        (handle_transform_connection emitOk 0 stream ++
          transform_pipe_listener rest) = _
    rw [h1]
    rfl
  · rw [listener_count_connect]
    simp [Nat.add_comm]

theorem short_record_no_emit_reconnect_witness :
    (List.replicate 40 0).length < TRANSFORM_DATA_SIZE ∧
    (handle_transform_connection (fun _ => true) 0 (List.replicate 40 0) =
        [Action.logEof] ∧
     emittedMatrices
        (handle_transform_connection (fun _ => true) 0 (List.replicate 40 0))
        = [] ∧
     transform_pipe_listener
        (ConnEvent.connectOk (List.replicate 40 0) (fun _ => true) ::
          [ConnEvent.connectFail]) =
       Action.connectAttempt :: Action.logEof ::
         transform_pipe_listener [ConnEvent.connectFail] ∧
     (transform_pipe_listener
        (ConnEvent.connectOk (List.replicate 40 0) (fun _ => true) ::
          [ConnEvent.connectFail])).count Action.connectAttempt =
       1 + [ConnEvent.connectFail].length) :=
  ⟨by decide,
   short_record_no_emit_reconnect (List.replicate 40 0) (fun _ => true)
     [ConnEvent.connectFail] (by decide)⟩

/-- Claim C7: for every complete 64-byte record read from the inbound pipe,
the publish callback is invoked exactly once with the decoded matrix — the
emitted matrices are exactly the decodes of the complete records, in arrival
order, independently of emit outcomes — and a failed emission is logged
(`logEmitErr`) while the read loop continues with the next record. -/
theorem records_emitted_once_in_order (emitOk : Nat → Bool) (k : Nat)
    (stream : List Nat) :
    emittedMatrices (handle_transform_connection emitOk k stream) =
      (chunks64 stream).map deserialize_matrix ∧
    (emitOk k = false → TRANSFORM_DATA_SIZE ≤ stream.length →
      handle_transform_connection emitOk k stream =
        Action.emitted (deserialize_matrix (stream.take TRANSFORM_DATA_SIZE)) ::
          Action.logEmitErr ::
            handle_transform_connection emitOk (k + 1)
              (stream.drop TRANSFORM_DATA_SIZE)) := by
  constructor
  · exact emittedMatrices_handle emitOk stream.length stream rfl k
  · intro hf hl
    rw [handle_step_ge emitOk k stream hl, hf]
    rfl

theorem records_emitted_once_in_order_witness :
    emittedMatrices
        (handle_transform_connection (fun _ => false) 0 (List.replicate 64 0))
      = (chunks64 (List.replicate 64 0)).map deserialize_matrix ∧
    handle_transform_connection (fun _ => false) 0 (List.replicate 64 0) =
      Action.emitted
          (deserialize_matrix ((List.replicate 64 0).take TRANSFORM_DATA_SIZE))
        :: Action.logEmitErr ::
          handle_transform_connection (fun _ => false) (0 + 1)
            ((List.replicate 64 0).drop TRANSFORM_DATA_SIZE) :=
  ⟨(records_emitted_once_in_order (fun _ => false) 0 (List.replicate 64 0)).1,
   (records_emitted_once_in_order (fun _ => false) 0 (List.replicate 64 0)).2
     rfl (by decide)⟩

/-- Claim C8: the inbound transform listener never terminates — each failed
connect is followed by the fixed 1-second sleep and the loop continues, each
disconnection of an established connection returns to the connect loop, and
over any script of connect outcomes the listener makes exactly one connect
attempt per scripted event (unbounded retries, no terminal state). -/
theorem transform_listener_never_terminates :
    (∀ rest, transform_pipe_listener (ConnEvent.connectFail :: rest) =
      Action.connectAttempt :: Action.sleepSec 1 ::
        transform_pipe_listener rest) ∧
    (∀ stream emitOk rest,
      transform_pipe_listener (ConnEvent.connectOk stream emitOk :: rest) =
        Action.connectAttempt ::
          (handle_transform_connection emitOk 0 stream ++
            transform_pipe_listener rest)) ∧
    (∀ evs, (transform_pipe_listener evs).count Action.connectAttempt =
      evs.length) :=
  ⟨fun _ => rfl, fun _ _ _ => rfl, listener_count_connect⟩

/-- Claim C9: if any individual float read fails during transform decoding —
possible exactly when the buffer is shorter than 64 bytes — the decode returns
the default all-zero 16-element matrix instead of an error; the decode is
total and always yields 16 elements. -/
theorem decode_error_yields_default (buffer : List Nat) :
    (buffer.length < TRANSFORM_DATA_SIZE →
      deserialize_matrix buffer = List.replicate 16 0) ∧
    (TRANSFORM_DATA_SIZE ≤ buffer.length →
      deserializeLoop 16 buffer ≠ none) ∧
    (deserialize_matrix buffer).length = 16 := by
  refine ⟨fun h => deserialize_matrix_of_lt buffer h, fun h => ?_,
    deserialize_matrix_length buffer⟩
  rw [deserializeLoop_eq 16 buffer (by rw [transform_data_size_eq] at h; omega)]
  simp

theorem decode_error_yields_default_witness :
    (List.replicate 40 0).length < TRANSFORM_DATA_SIZE ∧
    deserialize_matrix (List.replicate 40 0) = List.replicate 16 0 ∧
    (deserialize_matrix (List.replicate 40 0)).length = 16 :=
  ⟨by decide, (decode_error_yields_default (List.replicate 40 0)).1 (by decide),
   (decode_error_yields_default (List.replicate 40 0)).2.2⟩

/-- Claim C10: the outbound background connection task terminates right after
its first successful connect — after any run of failures it stores the writer
and exits, ignoring the remainder of the script (no monitoring) — and a
`send_frame_data` call spawns a new connection task exactly when it attempted
a write on a connected slot and the write failed. -/
theorem connection_loop_exits_on_success :
    (∀ n (rest : List Bool),
      connection_loop (List.replicate n false ++ true :: rest) =
        { attempts := n + 1, stored := true, sleeps := n }) ∧
    (∀ body slot writeResult,
      (send_frame_data body slot writeResult).spawnedReconnect = true ↔
        ∃ payload e, body = InvokeBody.Raw payload ∧ 8 ≤ payload.length ∧
          slot = some () ∧ writeResult = Except.error e) := by
  constructor
  · intro n
    induction n with
    | zero => intro rest; rfl
    | succ m ih =>
        intro rest
        show connection_loop (false :: (List.replicate m false ++ true :: rest))
          = _
        rw [connection_loop, ih rest]
  · intro body slot writeResult
    constructor
    · intro h
      cases body with
      | Json => simp [send_frame_data] at h
      | Raw payload =>
        by_cases hlen : payload.length < 8
        · simp [send_frame_data, hlen] at h
        · push_neg at hlen
          cases slot with
          | none =>
              rw [send_raw_not_connected payload hlen writeResult] at h
              simp at h
          | some u =>
              cases u
              cases writeResult with
              | ok v =>
                  cases v
                  rw [send_raw_write_ok payload hlen] at h
                  simp at h
              | error e => exact ⟨payload, e, rfl, hlen, rfl, rfl⟩
    · rintro ⟨payload, e, rfl, hlen, rfl, rfl⟩
      rw [send_raw_write_error payload hlen e]

theorem connection_loop_exits_on_success_witness :
    connection_loop (List.replicate 2 false ++ true :: [false, true]) =
      { attempts := 3, stored := true, sleeps := 2 } ∧
    ((send_frame_data (InvokeBody.Raw (List.replicate 8 0)) (some ())
        (Except.error "broken pipe")).spawnedReconnect = true ↔
      ∃ payload e,
        InvokeBody.Raw (List.replicate 8 0) = InvokeBody.Raw payload ∧
          8 ≤ payload.length ∧ (some () : Option Unit) = some () ∧
          (Except.error "broken pipe" : Except String Unit) = Except.error e) :=
  ⟨connection_loop_exits_on_success.1 2 [false, true],
   connection_loop_exits_on_success.2 (InvokeBody.Raw (List.replicate 8 0))
     (some ()) (Except.error "broken pipe")⟩

end PuppyWeb
